import Mathlib

/-!
Verification of the Hadoop rack topology resolver script
(`etc/hadoop/rack.py`).  The script holds a hardcoded table mapping node
addresses to rack identifiers, reads one command-line argument, and prints
`"/" ++ rack.get(arg, "rack-default")`.

The embedding below mirrors the Python source: the dictionary literal
becomes an association list, `dict.get` becomes a lookup with default,
and `sys.argv[1]` becomes an indexing operation that fails (models an
`IndexError`, hence a non-zero exit with no printed line) when the index
is out of range.
-/

namespace RackResolver

/-- The `rack` dictionary literal from `rack.py`, lines 5-13, with the
entries in source order.  Python dict literal keys are unique here, so an
association list is a faithful embedding. -/
def rack : List (String × String) :=
  [ ("compute-13-10.local", "rack-1"),
    ("compute-13-12.local", "rack-1"),
    ("compute-13-14.local", "rack-2"),
    ("compute-13-16.local", "rack-2"),
    ("192.168.32.92", "rack-1"),
    ("192.168.32.94", "rack-1"),
    ("192.168.32.96", "rack-2"),
    ("192.168.32.98", "rack-2") ]

/-- Embedding of Python `d.get(k, default)` on an association list with
unique keys: return the value of the first matching key, or the default
when no key matches.  `dict.get` never raises and never mutates. -/
def dictGet (m : List (String × String)) (k d : String) : String :=
  match m with
  | [] => d
  | (k', v) :: rest => if k = k' then v else dictGet rest k d

/-- The string printed by line 17 of `rack.py` for a given address
argument: `"/" + rack.get(sys.argv[1], "rack-default")`. -/
def resolverOutput (addr : String) : String :=
  "/" ++ dictGet rack addr "rack-default"

/-- Embedding of Python list indexing `argv[i]`: `Except.error ()` models
the `IndexError` raised when `i` is out of range. -/
def pyIndex (argv : List String) (i : Nat) : Except Unit String :=
  match argv[i]? with
  | some s => Except.ok s
  | none => Except.error ()

/-- The whole `__main__` block of `rack.py` as a function from the full
argument vector (`argv[0]` is the script name, as in `sys.argv`) to
either the list of lines printed to standard output, or an error marking
an uncaught exception (non-zero exit status, nothing printed). -/
def runMain (argv : List String) : Except Unit (List String) :=
  match pyIndex argv 1 with
  | Except.ok addr => Except.ok [resolverOutput addr]
  | Except.error e => Except.error e

/-- The process state visible to the script: the global `rack` table.
`resolve` performs one invocation of the lookup against that state and
returns the printed string together with the (unchanged) state, making
any mutation of the table by a lookup observable. -/
structure ProcState where
  table : List (String × String)
deriving DecidableEq

/-- One resolver invocation against an explicit table state: the lookup
reads the table and mutates nothing (`dict.get` is read-only). -/
def resolve (s : ProcState) (addr : String) : String × ProcState :=
  ("/" ++ dictGet s.table addr "rack-default", s)

/-- The state at process start: the `rack` literal. -/
def initState : ProcState := ⟨rack⟩

/-- Helper: every value `dictGet` can return on the `rack` table is
`rack-1`, `rack-2`, or the default `rack-default`. -/
theorem dictGet_rack_range (addr : String) :
    dictGet rack addr "rack-default" = "rack-1" ∨
    dictGet rack addr "rack-default" = "rack-2" ∨
    dictGet rack addr "rack-default" = "rack-default" := by
  simp only [rack, dictGet]
  split_ifs <;> simp

/-- Helper: hence the printed string is one of three concrete values. -/
theorem resolverOutput_range (addr : String) :
    resolverOutput addr = "/rack-1" ∨
    resolverOutput addr = "/rack-2" ∨
    resolverOutput addr = "/rack-default" := by
  unfold resolverOutput
  rcases dictGet_rack_range addr with h | h | h <;> rw [h] <;> simp

/-- C1: for every address that is a key of the rack table, the resolver
prints exactly `/` concatenated with the table's value for that key. -/
theorem resolver_hit (addr v : String) (h : (addr, v) ∈ rack) :
    resolverOutput addr = "/" ++ v := by
  fin_cases h <;> rfl

/-- Witness for C1 at the concrete key `compute-13-10.local`. -/
theorem resolver_hit_witness :
    ("compute-13-10.local", "rack-1") ∈ rack ∧
    resolverOutput "compute-13-10.local" = "/" ++ "rack-1" :=
  ⟨by decide, resolver_hit "compute-13-10.local" "rack-1" (by decide)⟩

/-- C2: for every address that is not a key of the rack table, the
resolver prints exactly `/rack-default`; the lookup is a total function
and the not-found case raises no exception (the run succeeds). -/
theorem resolver_miss (script addr : String)
    (h : addr ∉ rack.map Prod.fst) :
    resolverOutput addr = "/rack-default" ∧
    runMain [script, addr] = Except.ok ["/rack-default"] := by
  have hout : resolverOutput addr = "/rack-default" := by
    have : dictGet rack addr "rack-default" = "rack-default" := by
      simp only [rack, List.map, List.mem_cons, List.not_mem_nil, or_false,
        not_or] at h
      simp only [rack, dictGet]
      split_ifs with h1 h2 h3 h4 h5 h6 h7 h8 <;>
        first
          | rfl
          | (exact absurd (by assumption) (by tauto))
    unfold resolverOutput
    rw [this]
    decide
  refine ⟨hout, ?_⟩
  simp [runMain, pyIndex, hout]

/-- Witness for C2 at the concrete non-key `unknown-host.example`. -/
theorem resolver_miss_witness :
    "unknown-host.example" ∉ rack.map Prod.fst ∧
    (resolverOutput "unknown-host.example" = "/rack-default" ∧
     runMain ["rack.py", "unknown-host.example"] =
       Except.ok ["/rack-default"]) :=
  ⟨by decide, resolver_miss "rack.py" "unknown-host.example" (by decide)⟩

/-- C3: the five concrete scenarios of the spec hold. -/
theorem resolver_scenarios :
    resolverOutput "compute-13-10.local" = "/rack-1" ∧
    resolverOutput "compute-13-14.local" = "/rack-2" ∧
    resolverOutput "192.168.32.94" = "/rack-1" ∧
    resolverOutput "192.168.32.98" = "/rack-2" ∧
    resolverOutput "unknown-host.example" = "/rack-default" := by
  refine ⟨rfl, rfl, rfl, rfl, rfl⟩

/-- C4: invoked with no argument (the argument vector holds only the
script name), `sys.argv[1]` raises, so the run fails (non-zero exit) and
no rack path is printed to standard output. -/
theorem resolver_no_arg (script : String) :
    runMain [script] = Except.error () := by
  rfl

/-- C5: for every input address, the printed string is non-empty, begins
with `/`, and contains no newline character. -/
theorem resolver_output_shape (addr : String) :
    resolverOutput addr ≠ "" ∧
    (resolverOutput addr).data.head? = some '/' ∧
    '\n' ∉ (resolverOutput addr).data := by
  rcases resolverOutput_range addr with h | h | h <;> rw [h] <;>
    refine ⟨by decide, by decide, by decide⟩

/-- C6: the resolver is deterministic and has no hidden state: a second
invocation with the same address, run against whatever state the first
invocation left behind, prints the same string; and the pure
per-invocation output function gives equal results for equal inputs. -/
theorem resolver_deterministic (addr : String) :
    (resolve (resolve initState addr).2 addr).1 =
      (resolve initState addr).1 ∧
    (resolve initState addr).1 = resolverOutput addr := by
  exact ⟨rfl, rfl⟩

/-- C7: resolving any address leaves the rack table unchanged: the lookup
is read-only on the state. -/
theorem resolver_frame (s : ProcState) (addr : String) :
    (resolve s addr).2 = s := by
  rfl

/-- C8: for every argument vector the run terminates with a definite
result: either it fails (no argument) or it prints exactly one line. -/
theorem resolver_terminates (argv : List String) :
    runMain argv = Except.error () ∨
    ∃ line, runMain argv = Except.ok [line] := by
  unfold runMain pyIndex
  cases h : argv[1]? with
  | none => left; rfl
  | some s => right; exact ⟨resolverOutput s, rfl⟩

/-- C9: the table has exactly 8 entries, its values are only `rack-1`
and `rack-2`, and hence every printed string is one of `/rack-1`,
`/rack-2`, `/rack-default`. -/
theorem resolver_output_three_values (addr : String) :
    rack.length = 8 ∧
    (∀ p ∈ rack, p.2 = "rack-1" ∨ p.2 = "rack-2") ∧
    (resolverOutput addr = "/rack-1" ∨
     resolverOutput addr = "/rack-2" ∨
     resolverOutput addr = "/rack-default") := by
  refine ⟨rfl, by decide, resolverOutput_range addr⟩

/-- C10: arguments after the first are ignored: the run with extra
arguments prints exactly what the run with only the first argument
prints. -/
theorem resolver_ignores_extra_args (script addr : String)
    (rest : List String) :
    runMain (script :: addr :: rest) = runMain [script, addr] := by
  unfold runMain pyIndex
  simp

end RackResolver
